import Mathlib

/-!
Verification development for the freight-quotation spreadsheet parser
(modules `scripts/data/location_whitelist.py`, `scripts/modules/route_extractor.py`,
`scripts/modules/horizontal_table_parser.py`, `scripts/dryrun_horizontal_parser.py`).

The Python code is shallowly embedded: strings are Lean `String`
(a `List Char` in this toolchain, matching Python's sequence-of-code-points
view), `Optional[str]` is `Option String`, Python truthiness of a string is
"non-empty", and the regular expressions used by the code are compiled by
hand into backtracking matchers with Python `re` leftmost-then-greedy
semantics.  Numeric fields hold the matched numeral text (the code stores
`float(numeral)`; none of the verified claims depends on float arithmetic,
only on presence/absence and propagation of these fields).
-/

set_option maxRecDepth 20000
set_option maxHeartbeats 1000000

/-! ### Python string primitives -/

/-- Python whitespace for `str.strip()` / regex `\s` (ASCII part; the inputs
considered here contain no non-ASCII whitespace). -/
def pyWsChar (c : Char) : Bool :=
  c = ' ' || c = '\t' || c = '\n' || c = '\x0d' || c = '\x0b' || c = '\x0c'

/-- strip from both ends, list form. -/
def pyStripL (l : List Char) : List Char :=
  ((l.dropWhile pyWsChar).reverse.dropWhile pyWsChar).reverse

/-- Python `str.strip()`. -/
def pyStrip (s : String) : String := ⟨pyStripL s.data⟩

/-- Python `str.rstrip(chars)` for an explicit character set. -/
def pyRStripSet (set : List Char) (s : String) : String :=
  ⟨(s.data.reverse.dropWhile (fun c => set.contains c)).reverse⟩

/-- Python `str.strip(chars)` for an explicit character set. -/
def pyStripSet (set : List Char) (s : String) : String :=
  ⟨((s.data.dropWhile (fun c => set.contains c)).reverse.dropWhile
      (fun c => set.contains c)).reverse⟩

/-- Python `str.lower()` (ASCII case folding; CJK characters are unchanged,
as in Python). -/
def pyLower (s : String) : String := ⟨s.data.map Char.toLower⟩

/-- Python substring containment `needle in hay`, list form.
The empty needle is contained in everything, as in Python. -/
def strInL (needle : List Char) : List Char → Bool
  | [] => needle.isPrefixOf []
  | c :: t => needle.isPrefixOf (c :: t) || strInL needle t

/-- Python `needle in hay` on strings. -/
def strIn (needle hay : String) : Bool := strInL needle.data hay.data

/-- Python `str.replace(p, r)` (all non-overlapping occurrences, left to
right), with explicit fuel; called with fuel = length of the subject, which
is exact for non-empty patterns (each step consumes at least one character).
All call sites use non-empty patterns. -/
def pyReplaceL (p r : List Char) : Nat → List Char → List Char
  | 0, l => l
  | _ + 1, [] => []
  | fuel + 1, c :: t =>
    if !p.isEmpty && p.isPrefixOf (c :: t) then
      r ++ pyReplaceL p r fuel (List.drop p.length (c :: t))
    else
      c :: pyReplaceL p r fuel t

/-- Python `s.replace(p, r)`. -/
def pyReplace (s p r : String) : String :=
  ⟨pyReplaceL p.data r.data s.data.length s.data⟩

/-- Python `str.split(sep)` for a non-empty separator, with fuel as above. -/
def pySplitL (sep : List Char) : Nat → List Char → List (List Char)
  | 0, l => [l]
  | _ + 1, [] => [[]]
  | fuel + 1, c :: t =>
    if !sep.isEmpty && sep.isPrefixOf (c :: t) then
      [] :: pySplitL sep fuel (List.drop sep.length (c :: t))
    else
      match pySplitL sep fuel t with
      | [] => [[c]]
      | piece :: rest => (c :: piece) :: rest

/-- Python `s.split(sep)`. -/
def pySplit (s sep : String) : List String :=
  (pySplitL sep.data s.data.length s.data).map String.mk

/-- Python slice `l[a : b+1]` (used for `sheet_data[start:end+1]`). -/
def listSlice (l : List α) (a b : Nat) : List α := (l.drop a).take (b + 1 - a)

/-- Python `str(x)` for an `Optional[str]`: `None` renders as the four
characters `None`. -/
def pyOptStr : Option String → String
  | none => "None"
  | some s => s

/-- Python truthiness of a string. -/
def strTruthy (s : String) : Bool := !(s == "")

/-- Python truthiness of an `Optional[str]`: non-`None` and non-empty. -/
def optTruthy : Option String → Bool
  | none => false
  | some s => strTruthy s

/-- Python truthiness of an optional float represented by its numeral text:
present and non-zero (a numeral of the form digits-dot-digits denotes zero
exactly when every digit is `0`). -/
def numTruthy : Option String → Bool
  | none => false
  | some s => !(s.data.all (fun c => c = '0' || c = '.'))

/-! ### `scripts/data/location_whitelist.py` -/

/-- `LOCATION_WHITELIST` — the reference set of location names, transcribed
entry for entry from the source (a Python set literal; list order is
irrelevant because every use is a membership or existential test).  The
source set literal contains one duplicate spelling, which a Python set
collapses; keeping it in the list does not change any membership test. -/
def LOCATION_WHITELIST : List String := [
  "深圳", "广州", "上海", "北京", "天津", "重庆", "成都", "西安",
  "武汉", "杭州", "南京", "苏州", "宁波", "青岛", "大连", "厦门",
  "东莞", "佛山", "中山", "珠海", "惠州", "江门", "肇庆", "汕头",
  "福州", "泉州", "温州", "台州", "义乌", "郑州", "长沙", "合肥",
  "南昌", "沈阳", "哈尔滨", "长春", "呼和浩特", "乌鲁木齐", "兰州",
  "银川", "西宁", "昆明", "贵阳", "南宁", "海口", "三亚", "拉萨",
  "石家庄", "太原", "济南", "烟台", "威海", "淄博", "潍坊", "临沂",
  "国内", "中国", "内地", "大陆", "广东", "浙江", "江苏", "山东",
  "河北", "河南", "湖北", "湖南", "四川", "陕西", "福建", "安徽",
  "香港", "澳门", "台湾", "台北", "高雄", "台中", "HK", "HongKong",
  "日本", "东京", "大阪", "名古屋", "横滨", "神户", "福冈", "札幌",
  "韩国", "首尔", "釜山", "仁川", "Seoul", "Busan",
  "朝鲜", "平壤", "蒙古", "乌兰巴托",
  "新加坡", "Singapore", "SG", "狮城",
  "马来西亚", "马来", "吉隆坡", "槟城", "柔佛", "新山", "巴生港", "Malaysia",
  "泰国", "曼谷", "Bangkok", "清迈", "普吉",
  "越南", "河内", "胡志明", "Vietnam", "西贡",
  "菲律宾", "马尼拉", "Manila", "宿务",
  "印度尼西亚", "印尼", "雅加达", "Jakarta", "巴厘岛",
  "缅甸", "仰光", "Myanmar", "柬埔寨", "金边", "Cambodia",
  "老挝", "万象", "文莱", "斯里巴加湾", "东帝汶",
  "印度", "新德里", "孟买", "班加罗尔", "金奈", "加尔各答", "India", "Delhi",
  "巴基斯坦", "伊斯兰堡", "卡拉奇", "Pakistan",
  "孟加拉", "达卡", "Bangladesh", "斯里兰卡", "科伦坡", "SriLanka",
  "尼泊尔", "加德满都", "不丹", "廷布", "马尔代夫", "马累",
  "沙特", "沙特阿拉伯", "利雅得", "吉达", "Saudi", "Riyadh",
  "阿联酋", "迪拜", "阿布扎比", "Dubai", "UAE", "AbuDhabi",
  "卡塔尔", "多哈", "Qatar", "Doha", "科威特", "Kuwait",
  "巴林", "Bahrain", "阿曼", "马斯喀特", "Oman",
  "伊朗", "德黑兰", "Iran", "伊拉克", "巴格达", "Iraq",
  "叙利亚", "大马士革", "约旦", "安曼", "Jordan",
  "以色列", "特拉维夫", "耶路撒冷", "Israel",
  "黎巴嫩", "贝鲁特", "也门", "萨那",
  "土耳其", "伊斯坦布尔", "安卡拉", "Turkey", "Istanbul",
  "英国", "伦敦", "曼彻斯特", "伯明翰", "UK", "London", "England",
  "法国", "巴黎", "马赛", "里昂", "France", "Paris",
  "德国", "柏林", "汉堡", "慕尼黑", "法兰克福", "Germany", "Frankfurt", "Berlin",
  "荷兰", "阿姆斯特丹", "鹿特丹", "Netherlands", "Amsterdam",
  "比利时", "布鲁塞尔", "安特卫普", "Belgium", "Brussels",
  "卢森堡", "Luxembourg", "瑞士", "苏黎世", "日内瓦", "Switzerland", "Zurich",
  "奥地利", "维也纳", "Austria", "Vienna",
  "西班牙", "马德里", "巴塞罗那", "Spain", "Madrid", "Barcelona",
  "葡萄牙", "里斯本", "Portugal", "Lisbon",
  "意大利", "罗马", "米兰", "威尼斯", "Italy", "Rome", "Milan",
  "希腊", "雅典", "Greece", "Athens", "马耳他", "Malta",
  "瑞典", "斯德哥尔摩", "Sweden", "Stockholm",
  "挪威", "奥斯陆", "Norway", "Oslo",
  "芬兰", "赫尔辛基", "Finland", "Helsinki",
  "丹麦", "哥本哈根", "Denmark", "Copenhagen",
  "冰岛", "雷克雅未克", "Iceland",
  "俄罗斯", "莫斯科", "圣彼得堡", "Russia", "Moscow",
  "波兰", "华沙", "Poland", "Warsaw",
  "捷克", "布拉格", "Czech", "Prague",
  "匈牙利", "布达佩斯", "Hungary", "Budapest",
  "罗马尼亚", "布加勒斯特", "Romania",
  "保加利亚", "索非亚", "Bulgaria",
  "乌克兰", "基辅", "Ukraine", "Kiev", "爱尔兰",
  "美国", "USA", "US", "America", "美",
  "纽约", "洛杉矶", "芝加哥", "休斯顿", "凤凰城", "费城", "圣安东尼奥",
  "圣地亚哥", "达拉斯", "旧金山", "西雅图", "波士顿", "迈阿密", "亚特兰大",
  "NewYork", "LosAngeles", "Chicago", "Houston", "Dallas", "Seattle",
  "加拿大", "多伦多", "温哥华", "蒙特利尔", "Canada", "Toronto", "Vancouver",
  "墨西哥", "墨西哥城", "Mexico",
  "巴西", "圣保罗", "里约热内卢", "Brazil", "SaoPaulo",
  "阿根廷", "布宜诺斯艾利斯", "Argentina", "BuenosAires",
  "智利", "圣地亚哥", "Chile", "Santiago",
  "秘鲁", "利马", "Peru", "Lima",
  "哥伦比亚", "波哥大", "Colombia", "Bogota",
  "委内瑞拉", "加拉加斯", "Venezuela",
  "厄瓜多尔", "基多", "Ecuador", "玻利维亚", "拉巴斯", "Bolivia",
  "澳大利亚", "澳洲", "悉尼", "墨尔本", "布里斯班", "珀斯",
  "Australia", "Sydney", "Melbourne",
  "新西兰", "奥克兰", "惠灵顿", "NewZealand", "Auckland",
  "斐济", "Fiji", "巴布亚新几内亚", "PNG",
  "南非", "约翰内斯堡", "开普敦", "SouthAfrica", "Johannesburg",
  "埃及", "开罗", "Egypt", "Cairo",
  "尼日利亚", "拉各斯", "Nigeria", "Lagos",
  "肯尼亚", "内罗毕", "Kenya", "Nairobi",
  "埃塞俄比亚", "亚的斯亚贝巴", "Ethiopia",
  "摩洛哥", "卡萨布兰卡", "Morocco",
  "阿尔及利亚", "阿尔及尔", "Algeria",
  "坦桑尼亚", "达累斯萨拉姆", "Tanzania", "加纳", "阿克拉", "Ghana",
  "欧洲", "Europe", "亚洲", "Asia", "美洲", "Americas",
  "鹿特丹港", "安特卫普港", "汉堡港", "不来梅港",
  "洛杉矶港", "长滩港", "纽约港", "休斯顿港",
  "新加坡港", "香港港", "上海港", "深圳港", "宁波港",
  "盐田", "蛇口", "赤湾", "南沙", "黄埔",
  "海外", "境外", "国际", "全球", "世界"]

/-- `is_valid_location(location)`: `False` for a falsy string; otherwise the
stripped text is accepted on an exact whitelist hit or if it contains, or is
contained in, any whitelist entry. -/
def is_valid_location (location : String) : Bool :=
  if location == "" then false
  else
    let t := pyStrip location
    LOCATION_WHITELIST.contains t ||
      LOCATION_WHITELIST.any (fun e => strIn e t || strIn t e)

/-- Ordered prefixes stripped by `clean_location_text`. -/
def cltPrefixes : List String := ["货交", "从", "自", "按"]

/-- Ordered business words at which `clean_location_text` truncates. -/
def cltBusinessWords : List String :=
  ["专线", "一般贸易", "海运", "空运", "快递", "方案",
   "贸易", "代理", "贸代", "过港", "快件", "正清", "双清",
   "宣传册", "伴手礼", "货物", "客户", "提供", "重量", "KGS", "KG"]

/-- Strip one leading occurrence of `p` (Python `text[len(prefix):]` after a
successful `startswith`). -/
def dropLead (p : String) (s : String) : String :=
  if p.data.isPrefixOf s.data then ⟨s.data.drop p.data.length⟩ else s

/-- `clean_location_text(text)`: strips the ordered prefixes sequentially,
truncates at the first of `：`, `:`, `,`, `，`, truncates at the first
business word present (always keeping the part before it, even if empty),
and strips whitespace. -/
def clean_location_text (text : String) : String :=
  if text == "" then ""
  else
    let t := cltPrefixes.foldl (fun acc p => dropLead p acc) text
    let t : String := ⟨t.data.takeWhile (fun c => !(['：', ':', ',', '，'].contains c))⟩
    let t :=
      match cltBusinessWords.find? (fun w => strIn w t) with
      | some w => pyStrip ((pySplit t w).headD "")
      | none => t
    pyStrip t

/-! ### `scripts/modules/route_extractor.py` -/

/-- Word character of the route patterns: CJK unified ideographs
`一-龥` or an ASCII letter. -/
def isWordChar (c : Char) : Bool :=
  (0x4e00 ≤ c.toNat && c.toNat ≤ 0x9fa5) || c.isAlpha

/-- Leading run of word characters. -/
def wordRunLen (l : List Char) : Nat := (l.takeWhile isWordChar).length

/-- Candidates for a greedy `{lo,hi}` word group at the head of `l`, in
backtracking order (longest first), as pairs (group, rest). -/
def wCands (lo hi : Nat) (l : List Char) : List (List Char × List Char) :=
  let r := min hi (wordRunLen l)
  if r < lo then []
  else (List.range (r + 1 - lo)).map (fun i => (l.take (r - i), l.drop (r - i)))

/-- Greedy `\s*`. -/
def wsDropL (l : List Char) : List Char := l.dropWhile pyWsChar

/-- The separator alternation of the extractor's `route_pattern`,
in regex trying order; the source alternative written as two dashes with an
optional second dash expands to the two-dash token followed by the
one-dash token. -/
def reSepToks : List String := ["→", "->", "--", "-", "—", "~", "至", "到"]

/-- Separator candidates at the head of `l`: for each alternation token that
is a prefix, the rest after consuming it, in trying order. -/
def sepAltCands (l : List Char) : List (List Char) :=
  reSepToks.filterMap (fun tok =>
    if tok.data.isPrefixOf l then some (l.drop tok.data.length) else none)

/-- A successful match of the extractor's `route_pattern`: the three
location capture groups (regex groups 1, 3, 5) and the suffix after the
match end. -/
structure ReMatch where
  g1 : List Char
  g3 : List Char
  g5 : Option (List Char)
  rest : List Char
deriving Repr, DecidableEq

/-- Anchored match of the extractor's `route_pattern` at the head of `l`,
with the backtracking order of the Python engine: first group longest
first, separator alternatives in order, second group longest first; the
trailing optional separator-plus-location group is greedy but never forces
re-splitting of the committed groups (the pattern ends right after it). -/
def matchRouteAt (l : List Char) : Option ReMatch :=
  (wCands 2 20 l).findSome? (fun p1 =>
    (sepAltCands (wsDropL p1.2)).findSome? (fun r2 =>
      (wCands 2 20 (wsDropL r2)).findSome? (fun p3 =>
        match (sepAltCands (wsDropL p3.2)).findSome? (fun r4 =>
                (wCands 2 20 (wsDropL r4)).findSome? (fun p5 => some p5)) with
        | some p5 => some ⟨p1.1, p3.1, some p5.1, p5.2⟩
        | none => some ⟨p1.1, p3.1, none, p3.2⟩)))

/-- `route_pattern.search`: leftmost match. -/
def searchRoute : List Char → Option ReMatch
  | [] => none
  | c :: t =>
    match matchRouteAt (c :: t) with
    | some m => some m
    | none => searchRoute t

/-- Case-insensitive-or-not literal token at the head of `l`; returns the
rest after consuming it. -/
def unitChomp (ci : Bool) (u : String) (l : List Char) : Option (List Char) :=
  let ud := if ci then u.data.map Char.toLower else u.data
  let ld := if ci then (l.take ud.length).map Char.toLower else l.take ud.length
  if ld == ud then some (l.drop ud.length) else none

/-- After a parsed numeral, `\s*` then one of the unit tokens. -/
def finishUnit (ci : Bool) (units : List String) (num rest : List Char) :
    Option (List Char × List Char) :=
  (units.findSome? (fun u => unitChomp ci u (wsDropL rest))).map (fun r => (num, r))

/-- Anchored match of a number-plus-unit pattern
(digits, optional greedy fraction, `\s*`, unit alternation): returns the
numeral text and the rest after the unit.  Backtracking beyond "fraction
present / absent" cannot succeed because no unit token begins with a digit
or a dot. -/
def matchNumAt (ci : Bool) (units : List String) (l : List Char) :
    Option (List Char × List Char) :=
  let d := l.takeWhile Char.isDigit
  if d.isEmpty then none
  else
    let afterInt := l.drop d.length
    let fracAttempt : Option (List Char × List Char) :=
      match afterInt with
      | '.' :: r2 =>
        let f := r2.takeWhile Char.isDigit
        if f.isEmpty then none
        else finishUnit ci units (d ++ '.' :: f) (r2.drop f.length)
      | _ => none
    match fracAttempt with
    | some res => some res
    | none => finishUnit ci units d afterInt

/-- Leftmost search for a number-plus-unit pattern. -/
def searchNum (ci : Bool) (units : List String) : List Char → Option (List Char × List Char)
  | [] => none
  | c :: t =>
    match matchNumAt ci units (c :: t) with
    | some m => some m
    | none => searchNum ci units t

/-- Unit alternation of `weight_pattern` (the optional-s alternative is
expanded; matching is case-insensitive). -/
def weightUnits : List String := ["kgs", "kg", "KGS", "KG", "千克", "公斤"]

/-- Unit alternation of `volume_pattern`. -/
def volumeUnits : List String := ["cbm", "CBM", "立方", "方"]

/-- Unit alternation of `value_pattern`. -/
def valueUnits : List String := ["元", "rmb", "RMB", "¥", "usd", "USD", "$"]

/-- `_extract_weight`: numeral of the first weight match, if any.  The code
stores `float(numeral)`; the numeral text is kept here. -/
def extract_weight (text : String) : Option String :=
  (searchNum true weightUnits text.data).map (fun m => String.mk m.1)

/-- `_extract_volume`. -/
def extract_volume (text : String) : Option String :=
  (searchNum true volumeUnits text.data).map (fun m => String.mk m.1)

/-- `_extract_value`. -/
def extract_value (text : String) : Option String :=
  (searchNum true valueUnits text.data).map (fun m => String.mk m.1)

/-- Unit alternation of the case-sensitive scrub applied to the trade
remark. -/
def remarkUnits : List String := ["kg", "KG", "cbm", "CBM", "元", "¥"]

/-- The remark scrub: every non-overlapping number-plus-unit occurrence is
removed (replaced by the empty string), with fuel as in the other scanners. -/
def subNumUnitL : Nat → List Char → List Char
  | 0, l => l
  | _ + 1, [] => []
  | fuel + 1, c :: t =>
    match matchNumAt false remarkUnits (c :: t) with
    | some m => subNumUnitL fuel m.2
    | none => c :: subNumUnitL fuel t

/-- `business_keywords` of the extractor, in source order. -/
def rexBusinessKeywords : List String :=
  ["海运", "空运", "快递", "铁路", "陆运", "卡车", "快件",
   "航空", "海派", "空派", "铁运",
   "专线", "正清", "双清", "包税", "到门", "到港", "预估",
   "DDP", "DAP", "DDU", "FOB", "CIF",
   "一般贸易", "贸代", "贸易",
   "成本", "询价", "方案", "代理", "过港", "报价", "明细",
   "费用", "汇总", "预算", "核算", "结算", "货交", "货到",
   "宣传册", "伴手礼", "货物", "样品", "设备", "产品",
   "客户", "提供", "重量", "数量"]

/-- One pass of the keyword scrub of `_deep_clean_location`: the first
keyword present whose split produces a usable non-empty part rewrites the
text (part before the keyword if non-empty after stripping, otherwise the
part after it) and stops the pass. -/
def deepCleanKeywordPass (cleaned : String) : String :=
  (rexBusinessKeywords.findSome? (fun kw =>
    if strIn kw cleaned then
      let parts := pySplit cleaned kw
      let p0 := pyStrip (parts.headD "")
      if strTruthy p0 then some p0
      else
        match parts with
        | _ :: p1 :: _ =>
          let p1s := pyStrip p1
          if strTruthy p1s then some p1s else none
        | _ => none
    else none)).getD cleaned

/-- Up to three passes of a rewriting function, stopping when a pass makes
no change (the loop shape shared by `_deep_clean_location` and
`_clean_location_suffix`). -/
def iter3 (f : String → String) (s : String) : String :=
  let s1 := f s
  if s1 == s then s1
  else
    let s2 := f s1
    if s2 == s1 then s2 else f s2

/-- Character set stripped from both ends in round 3 of
`_deep_clean_location`. -/
def deepCleanStripSet : List Char :=
  ['：', ':', ',', '，', '。', '.', '、', ' ', '\t', '\n', '[', ']', '【', '】', '(', ')']

/-- The hard-coded core-name list of round 4 of `_deep_clean_location`,
in source order. -/
def deepCleanCoreNames : List String :=
  ["深圳", "上海", "北京", "广州", "香港", "澳门",
   "新加坡", "印度", "泰国", "越南", "马来西亚", "马来",
   "菲律宾", "印尼", "雅加达", "胡志明", "柬埔寨",
   "沙特", "迪拜", "巴基斯坦", "英国", "法国", "德国",
   "法兰克福", "荷兰", "西班牙", "意大利", "达拉斯",
   "迈阿密", "圣何塞", "巴西", "巴拿马", "墨西哥",
   "澳洲", "澳大利亚", "新西兰", "首尔", "日本", "韩国",
   "柔佛", "国内", "中国"]

/-- `_deep_clean_location`: whitelist-module cleanup, up to three keyword
passes, edge-character strip; if the result is empty or shorter than two
characters, the first hard-coded core name occurring in the original text
is substituted (when none occurs, the short residue itself is returned). -/
def deep_clean_location (location : String) : String :=
  if location == "" then ""
  else
    let c1 := clean_location_text location
    let c2 := iter3 deepCleanKeywordPass c1
    let c3 := pyStripSet deepCleanStripSet c2
    if !strTruthy c3 || c3.length < 2 then
      match deepCleanCoreNames.find? (fun w => strIn w location) with
      | some w => w
      | none => c3
    else c3

/-- `route_separators`, in source order (this order differs from the regex
alternation order; the first separator contained anywhere in the text
wins). -/
def route_separators : List String :=
  ["→", "->", "--", "—", "－", "-", "~", "至", "到"]

/-- The route-parts dictionary produced by `_extract_route_parts` /
`_manual_split_route`. -/
structure RouteParts where
  origin : Option String
  destination : Option String
  via : Option String
  trade_remark : Option String
deriving Repr, DecidableEq

/-- `_manual_split_route`: the first separator present splits the text; the
stripped non-empty parts are deep-cleaned; with at least two parts that are
non-empty and whitelist-valid the result is first part = origin,
second part = destination, third part (if any) = via. -/
def manual_split_route (text : String) : Option RouteParts :=
  route_separators.findSome? (fun sep =>
    if strIn sep text then
      let parts := (pySplit text sep).map pyStrip
      if parts.length ≥ 2 then
        let cleaned := (parts.filter strTruthy).map deep_clean_location
        let valid := cleaned.filter (fun p => strTruthy p && is_valid_location p)
        if valid.length ≥ 2 then
          some ⟨some (valid.headD ""), valid.get? 1, valid.get? 2, none⟩
        else none
      else none
    else none)

/-- `_extract_route_parts`: the regex path (with the three-location fix:
middle = via, last = destination), falling back to the manual split when
the regex fails or leaves origin or destination unresolved. -/
def extract_route_parts (text : String) : Option RouteParts :=
  match searchRoute text.data with
  | some m =>
    let destRaw : List Char := match m.g5 with | some g5 => g5 | none => m.g3
    let viaRaw : Option (List Char) := match m.g5 with | some _ => some m.g3 | none => none
    let originC := deep_clean_location ⟨m.g1⟩
    let destC := deep_clean_location ⟨destRaw⟩
    let origin : Option String := if is_valid_location originC then some originC else none
    let dest : Option String := if is_valid_location destC then some destC else none
    let via : Option String :=
      match viaRaw.map (fun v => deep_clean_location ⟨v⟩) with
      | some v => if strTruthy v && !is_valid_location v then none else some v
      | none => none
    let trade_remark : Option String :=
      if m.rest.isEmpty then none
      else
        let remaining := pyStrip ⟨m.rest⟩
        if strTruthy remaining then
          let r2 := pyStrip ⟨subNumUnitL remaining.data.length remaining.data⟩
          if strTruthy r2 then some ⟨r2.data.take 100⟩ else none
        else none
    if optTruthy origin && optTruthy dest then
      some ⟨origin, dest, via, trade_remark⟩
    else manual_split_route text
  | none => manual_split_route text

/-- The result dictionary of `RouteExtractor.extract_route`.  Numeric
fields hold the matched numeral text (the code converts them with
`float`). -/
structure ExtractResult where
  origin : Option String
  destination : Option String
  via : Option String
  trade_remark : Option String
  weight : Option String
  volume : Option String
  value : Option String
  raw : String
deriving Repr, DecidableEq

/-- `RouteExtractor.extract_route(text, fallback_start)`. -/
def extract_route (text : String) (fallback_start : Option String) : ExtractResult :=
  if text == "" then ⟨none, none, none, none, none, none, none, text⟩
  else
    let base : ExtractResult := ⟨none, none, none, none, none, none, none, text⟩
    let r :=
      match extract_route_parts text with
      | some p =>
        {base with origin := p.origin, destination := p.destination,
                   via := p.via, trade_remark := p.trade_remark}
      | none => base
    let r :=
      if !optTruthy r.origin && optTruthy fallback_start then
        let cs := deep_clean_location (pyOptStr fallback_start)
        if is_valid_location cs then {r with origin := some cs} else r
      else r
    {r with weight := extract_weight text,
            volume := extract_volume text,
            value := extract_value text}

/-! ### `scripts/modules/horizontal_table_parser.py` -/

/-- `Route` (dataclass).  Field names are romanized; the Chinese source
names are 起始地/目的地/途径地/贸易备注/交易开始日期/交易结束日期/实际重量/
计费重量/总体积/货值/_raw/_sheet_name in this order.  Numeric fields hold
the matched numeral text (the source stores `float` values). -/
structure Route where
  origin : Option String := none
  destination : Option String := none
  via : Option String := none
  tradeRemark : Option String := none
  startDate : Option String := none
  endDate : Option String := none
  actualWeight : Option String := none
  billingWeight : Option String := none
  totalVolume : Option String := none
  declaredValue : Option String := none
  raw : Option String := none
  sheetName : Option String := none
deriving Repr, DecidableEq

/-- `location_normalization_map`, in source (insertion) order. -/
def hzNormalizationMap : List (String × String) :=
  [("奥地利维也纳", "维也纳"), ("德国法兰克福", "法兰克福"),
   ("荷兰阿姆斯特丹", "阿姆斯特丹"), ("英国伦敦", "伦敦"), ("法国巴黎", "巴黎"),
   ("马来西亚", "马来"), ("印度尼西亚", "印尼"),
   ("中国香港", "香港"), ("中国深圳", "深圳"), ("中国广州", "广州"),
   ("中国北京", "北京"), ("中国上海", "上海"),
   ("美国达拉斯", "达拉斯"), ("美国迈阿密", "迈阿密"), ("美国圣何塞", "圣何塞"),
   ("新加坡共和国", "新加坡"), ("越南河内", "河内"), ("泰国曼谷", "曼谷"),
   ("菲律宾马尼拉", "马尼拉"), ("印尼雅加达", "雅加达"), ("马来柔佛", "柔佛")]

/-- `Route.normalize_location`: falsy input returned unchanged; otherwise
the stripped text with every mapping entry applied in insertion order
(replace-all at each applicable key). -/
def normalize_location : Option String → Option String
  | none => none
  | some s =>
    if s == "" then some s
    else
      let t := pyStrip s
      some (hzNormalizationMap.foldl
        (fun acc p => if strIn p.1 acc then pyReplace acc p.1 p.2 else acc) t)

/-- `Route.get_unique_key`: exact fields plus sheet identity, pipe-joined by
an f-string (so `None` renders as the text `None`). -/
def Route.get_unique_key (r : Route) : String :=
  pyOptStr r.origin ++ "|" ++ pyOptStr r.destination ++ "|" ++
    pyOptStr r.via ++ "|" ++ pyOptStr r.sheetName

/-- `Route.get_route_signature`: location-normalized fields, pipe-joined;
a falsy via is passed through as `None`. -/
def Route.get_route_signature (r : Route) : String :=
  pyOptStr (normalize_location r.origin) ++ "|" ++
    pyOptStr (normalize_location r.destination) ++ "|" ++
    pyOptStr (if optTruthy r.via then normalize_location r.via else none)

/-- `Agent` (dataclass); `name` is 代理商, the remaining fields mirror
运输方式/贸易类型/代理备注/不含/时效/是否赔付/赔付内容. -/
structure Agent where
  name : Option String := none
  transportMode : Option String := none
  tradeType : Option String := none
  agentRemark : Option String := none
  notIncluded : Option String := none
  leadTime : Option String := none
  compensationFlag : String := "0"
  compensationDetail : Option String := none
deriving Repr, DecidableEq

/-- `FeeItem` (numerals kept as text). -/
structure FeeItem where
  feeType : String := "按重量收费"
  feeName : Option String := none
  unitPrice : Option String := none
  unitName : Option String := none
  qty : Option String := none
deriving Repr, DecidableEq

/-- `FeeTotal`. -/
structure FeeTotal where
  total : Option String := none
deriving Repr, DecidableEq

/-- `Summary`. -/
structure Summary where
  subtotal : Option String := none
  taxRate : Option String := none
  tax : Option String := none
  lossRate : Option String := none
  loss : Option String := none
  grandTotal : Option String := none
  remark : Option String := none
deriving Repr, DecidableEq

/-- `QuoteBlock`. -/
structure QuoteBlock where
  route : Route
  agent : Agent
  feeItems : List FeeItem := []
  feeTotal : FeeTotal := {}
  summary : Summary := {}
deriving Repr, DecidableEq

/-- A sheet row (list of cell strings). -/
abbrev Row := List String

/-- A table span: (start row, end row, header text). -/
abbrev Span := Nat × Nat × String

/-- `business_suffixes` of the parser, in source order. -/
def hzBusinessSuffixes : List String :=
  ["小货的", "快递", "价格", "成本", "方案", "询价", "预估",
   "贸易代理", "贸代", "专线", "海运", "空运", "正清", "双清",
   "包税", "到门", "到港", "的", "之", "啊", "吧", "呢"]

/-- One pass of `_clean_location_suffix`: remove the first listed suffix the
text ends with, then strip. -/
def stripSuffixPass (cleaned : String) : String :=
  match hzBusinessSuffixes.find? (fun suf => suf.data.isSuffixOf cleaned.data) with
  | some suf => pyStrip ⟨cleaned.data.take (cleaned.data.length - suf.data.length)⟩
  | none => cleaned

/-- `_clean_location_suffix`: up to three suffix passes; a result shorter
than two characters yields the original text. -/
def clean_location_suffix (location : String) : String :=
  if location == "" then location
  else
    let cleaned := iter3 stripSuffixPass location
    if cleaned.length < 2 then location else cleaned

/-- Separator class of the parser's `route_pattern`. -/
def isHzSepChar (c : Char) : Bool :=
  ['-', '—', '→', '>', '至', '到'].contains c

/-- Candidates for the class-plus separator at the head of `l`, greedy
first. -/
def classSepCands (l : List Char) : List (List Char) :=
  let k := (l.takeWhile isHzSepChar).length
  if k = 0 then [] else (List.range k).map (fun i => l.drop (k - i))

/-- Match result of the parser's `route_pattern` (groups 1, 2 and the
optional group 3). -/
structure HzMatch where
  g1 : List Char
  g2 : List Char
  g3 : Option (List Char)
deriving Repr, DecidableEq

/-- Anchored match of the parser's `route_pattern`
(`W{2,20}`, separator class `+`, `W{2,20}`, optional separator-class-plus
third `W{2,20}`), with the Python backtracking order. -/
def matchHzRouteAt (l : List Char) : Option HzMatch :=
  (wCands 2 20 l).findSome? (fun p1 =>
    (classSepCands (wsDropL p1.2)).findSome? (fun r2 =>
      (wCands 2 20 (wsDropL r2)).findSome? (fun p3 =>
        match (classSepCands (wsDropL p3.2)).findSome? (fun r4 =>
                (wCands 2 20 (wsDropL r4)).findSome? (fun p5 => some p5.1)) with
        | some g3 => some ⟨p1.1, p3.1, some g3⟩
        | none => some ⟨p1.1, p3.1, none⟩)))

/-- `route_pattern.search` of the parser. -/
def searchHzRoute : List Char → Option HzMatch
  | [] => none
  | c :: t =>
    match matchHzRouteAt (c :: t) with
    | some m => some m
    | none => searchHzRoute t

/-- Separator class of `table_header_pattern`. -/
def isThpSepChar (c : Char) : Bool := ['-', '—', '→', '>'].contains c

/-- Core of `table_header_pattern` after the optional marker: anchored
`W{2,15}`, separator class `+`, `W{2,15}`.  Because the separator class and
word class are disjoint, the match is deterministic: the first group must
be the whole leading word run (of length 2..15). -/
def thpCore (l : List Char) : Option (List Char × List Char) :=
  let r := wordRunLen l
  if 2 ≤ r && r ≤ 15 then
    let rest1 := wsDropL (l.drop r)
    let k := (rest1.takeWhile isThpSepChar).length
    if k = 0 then none
    else
      let rest2 := wsDropL (rest1.drop k)
      let r2 := wordRunLen rest2
      if r2 < 2 then none else some (l.take r, rest2.take (min r2 15))
  else none

/-- `table_header_pattern` (anchored by its caret, so `search` and `match`
agree): the greedy optional 货交 marker is consumed first and the engine
falls back to the unconsumed form if the rest fails. -/
def table_header_match (text : String) : Option (String × String) :=
  let l := text.data
  let attempt : Option (List Char × List Char) :=
    if ("货交" : String).data.isPrefixOf l then
      match thpCore (l.drop 2) with
      | some m => some m
      | none => thpCore l
    else thpCore l
  attempt.map (fun m => (⟨m.1⟩, ⟨m.2⟩))

/-- `agent_keywords`. -/
def agent_keywords : List String := ["代理", "货代", "公司"]

/-- The rule-2 look-ahead of `_find_table_boundaries`: the immediately
following row exists, its first cell is truthy, and its stripped lowered
text either contains agent vocabulary or is one of `/`, `-`, the empty
string. -/
def nextRowAgentCheck : Option Row → Bool
  | none => false
  | some row =>
    let c0 := row.headD ""
    if c0 == "" then false
    else
      let nc := pyLower (pyStrip c0)
      agent_keywords.any (fun kw => strIn kw nc) || ["/", "-", ""].contains nc

/-- The three-rule title test of `_find_table_boundaries` for a stripped
first cell, given the following row.  Rule 1: 货交 marker with a colon and a
validated header pattern.  Rule 2: a colon-bearing cell whose
colon-stripped text is short and a validated route, accepted only when the
next row passes the agent look-ahead.  Rule 3: no trailing colon and a
validated header pattern. -/
def isValidTitleB (cell : String) (next? : Option Row) : Bool :=
  if ("货交" : String).data.isPrefixOf cell.data && (strIn ":" cell || strIn "：" cell) then
    match table_header_match cell with
    | some m => is_valid_location m.1 && is_valid_location m.2
    | none => false
  else if strIn ":" cell || strIn "：" cell then
    let route_part := pyStrip (pyRStripSet ['：', ':'] cell)
    if route_part.length < 30 then
      match searchHzRoute route_part.data with
      | some m => is_valid_location ⟨m.g1⟩ && is_valid_location ⟨m.g2⟩ && nextRowAgentCheck next?
      | none => false
    else false
  else if !(("：" : String).data.isSuffixOf cell.data) && !((":" : String).data.isSuffixOf cell.data) then
    match table_header_match cell with
    | some m => is_valid_location m.1 && is_valid_location m.2
    | none => false
  else false

/-- The row loop of `_find_table_boundaries`: rows with a falsy first cell
or an over-long stripped first cell are skipped; a valid title closes the
open span at the previous row and opens a new one; the last open span
closes at the final row. -/
def scanRows : List Row → Nat → List Span → Option (Nat × String) → List Span
  | [], i, acc, cur =>
    (match cur with
     | some st => acc ++ [(st.1, i - 1, st.2)]
     | none => acc)
  | row :: rest, i, acc, cur =>
    let c0 := row.headD ""
    if c0 == "" then scanRows rest (i + 1) acc cur
    else
      let cell := pyStrip c0
      if cell.length > 80 then scanRows rest (i + 1) acc cur
      else if isValidTitleB cell rest.head? then
        match cur with
        | some st => scanRows rest (i + 1) (acc ++ [(st.1, i - 1, st.2)]) (some (i, cell))
        | none => scanRows rest (i + 1) acc (some (i, cell))
      else scanRows rest (i + 1) acc cur

/-- `_find_table_boundaries`, including the whole-sheet fallback: when no
titles were found and the sheet is non-empty, the first row becomes the
single span provided its text still matches the route pattern. -/
def find_table_boundaries (sheet : List Row) : List Span :=
  let bs := scanRows sheet 0 [] none
  if bs.isEmpty && !sheet.isEmpty then
    match sheet.headD [] with
    | [] => []
    | r0 =>
      let fc := pyStrip (r0.headD "")
      let rp := if strIn "|" fc then pyStrip ((pySplit fc "|").headD "") else fc
      if strTruthy rp && rp.length < 100 && (searchHzRoute rp.data).isSome then
        [(0, sheet.length - 1, fc)]
      else []
  else bs

/-- The structure dictionary of `_identify_structure` (its `fee_row` and
`total_row` slots are never assigned or read and are omitted). -/
structure TableStructB where
  numCols : Nat
  agentRow : Option Nat
deriving Repr, DecidableEq

/-- `_get_cell`: bounds-checked access; a cell whose stripped lowered text
is `nan`, `none` or empty is reported as missing, otherwise the stripped
text is returned. -/
def get_cell (table : List Row) (rowIdx colIdx : Nat) : Option String :=
  match (table.get? rowIdx).bind (fun r => r.get? colIdx) with
  | none => none
  | some c =>
    let t := pyLower (pyStrip c)
    if ["nan", "none", ""].contains t then none else some (pyStrip c)

/-- The agent-row scan of `_identify_structure` (method 1: agent vocabulary
in the first cell; method 2: a separator-token first cell with real content
in one of the next up-to-four columns). -/
def agentRowScan (table : List Row) : List Row → Nat → Option Nat
  | [], _ => none
  | row :: rest, i =>
    if row.isEmpty then agentRowScan table rest (i + 1)
    else
      let fc := if row.headD "" == "" then "" else pyLower (pyStrip (row.headD ""))
      if agent_keywords.any (fun kw => strIn kw fc) then some i
      else if ["/", "-", ""].contains fc then
        if row.length > 1 then
          let hasContent := (List.range' 1 (min row.length 5 - 1)).any (fun col =>
            match get_cell table i col with
            | some c => c.length > 1
            | none => false)
          if hasContent then some i else agentRowScan table rest (i + 1)
        else agentRowScan table rest (i + 1)
      else agentRowScan table rest (i + 1)

/-- `_identify_structure`.  The Python `max()` raises on a table whose rows
are all empty; that case is modeled as zero columns (no verified statement
evaluates it). -/
def identify_structure (table : List Row) : Option TableStructB :=
  if table.isEmpty then none
  else some ⟨((table.filter (fun r => !r.isEmpty)).map List.length).foldl max 0,
             agentRowScan table table 0⟩

/-- `_extract_route_from_text` in the deployed configuration (the
`RouteExtractor` import succeeds, so the in-class regex fallback branch is
dead code): field-delimiter split, colon strip, extractor call, billing
weight defaulting, destination suffix cleanup. -/
def extract_route_from_text (text : String) (sheet_name : Option String) : Route :=
  let base : Route :=
    {sheetName := sheet_name,
     raw := if text == "" then none else some ⟨text.data.take 100⟩}
  if text == "" then base
  else
    let route_part := if strIn "|" text then pyStrip ((pySplit text "|").headD "") else text
    let route_part := pyStrip (pyRStripSet ['：', ':'] route_part)
    let ri := extract_route route_part sheet_name
    let r : Route :=
      {base with origin := ri.origin, destination := ri.destination, via := ri.via,
                 tradeRemark := ri.trade_remark, actualWeight := ri.weight,
                 totalVolume := ri.volume, declaredValue := ri.value}
    let r :=
      if numTruthy r.actualWeight && !numTruthy r.billingWeight then
        {r with billingWeight := r.actualWeight}
      else r
    if optTruthy r.destination then
      {r with destination := some (clean_location_suffix (pyOptStr r.destination))}
    else r

/-- `_extract_column_quote`: an independent clone of the span route (the
transaction-date fields are not copied; the sheet name is re-attached) paired
with the agent read from the agent row at this column; no agent, no quote. -/
def extract_column_quote (table : List Row) (colIdx : Nat) (st : TableStructB)
    (base : Route) (sheet_name : Option String) : Option QuoteBlock :=
  let route : Route :=
    {origin := base.origin, destination := base.destination, via := base.via,
     tradeRemark := base.tradeRemark, actualWeight := base.actualWeight,
     billingWeight := base.billingWeight, totalVolume := base.totalVolume,
     declaredValue := base.declaredValue, raw := base.raw, sheetName := sheet_name}
  let agent : Agent :=
    match st.agentRow with
    | some ar =>
      (match get_cell table ar colIdx with
       | some c => {name := some (pyStrip c)}
       | none => {})
    | none => {}
  if !optTruthy agent.name then none
  else some {route := route, agent := agent}

/-- `_parse_single_table`: route extraction with the sheet-name fallback
(a table whose route resolves neither endpoint is dropped), structure
identification, then either the single-quote branch (which re-checks that
both endpoints resolved) or one quote per agent column. -/
def parse_single_table (table : List Row) (route_text : String)
    (sheet_name : Option String) : List QuoteBlock :=
  if table.length < 2 then []
  else
    let base0 := extract_route_from_text route_text sheet_name
    let base? : Option Route :=
      if (!optTruthy base0.origin || !optTruthy base0.destination) && optTruthy sheet_name then
        let sr := extract_route_from_text (pyOptStr sheet_name) sheet_name
        if optTruthy sr.origin && optTruthy sr.destination then some sr
        else if !optTruthy base0.origin && !optTruthy base0.destination then none
        else some base0
      else if !optTruthy base0.origin && !optTruthy base0.destination then none
      else some base0
    match base? with
    | none => []
    | some base =>
      match identify_structure table with
      | none => []
      | some st =>
        let isSingle : Bool :=
          if st.numCols ≤ 2 then true
          else
            match st.agentRow with
            | none => true
            | some ar =>
              let ard := if ar < table.length then table.getD ar [] else []
              !(ard.length > 1 &&
                (List.range' 1 (ard.length - 1)).any (fun i => strTruthy (ard.getD i "")))
        if isSingle then
          let agent0 : Agent :=
            match st.agentRow with
            | some ar =>
              let ard := table.getD ar []
              let cellChoice :=
                if ard.length ≥ 2 && agent_keywords.any (fun kw => strIn kw (ard.headD "")) then
                  get_cell table ar 1
                else get_cell table ar 0
              (match cellChoice with
               | some c => {name := some (pyStrip c)}
               | none => {})
            | none => {}
          let agent1 : Agent :=
            if optTruthy agent0.name then agent0
            else if optTruthy sheet_name then
              {agent0 with name := some (pyOptStr sheet_name ++ "-单列报价")}
            else {agent0 with name := some "未标注代理商"}
          if optTruthy base.origin && optTruthy base.destination then
            [{route := base, agent := agent1}]
          else []
        else
          (List.range' 1 (st.numCols - 1)).filterMap
            (fun col => extract_column_quote table col st base sheet_name)

/-- The per-quote raw-content test of `parse_sheet` feeding the
`has_content_route` flag. -/
def rawContentCheck (q : QuoteBlock) (sheet_name : Option String) : Bool :=
  match q.route.raw with
  | none => false
  | some r => strTruthy r && !(some r == sheet_name)

/-- One step of the sheet-level signature dedup of `parse_sheet`: a quote
whose route signature was already seen is dropped, otherwise it is appended
and its signature recorded. -/
def dedupStep (st : List QuoteBlock × List String) (q : QuoteBlock) :
    List QuoteBlock × List String :=
  let sig := q.route.get_route_signature
  if st.2.contains sig then st else (st.1 ++ [q], sig :: st.2)

/-- The signature dedup of `parse_sheet` as a function of the concatenated
quote stream. -/
def dedupBySignature (qs : List QuoteBlock) : List QuoteBlock :=
  (qs.foldl dedupStep ([], [])).1

/-- `parse_sheet` with `filename=None` (the date-enrichment step of the
source is a no-op in that configuration): boundary scan, per-span parsing,
signature dedup across the whole sheet, and the sheet-name fallback quote
when nothing was extracted and no span carried its own route text. -/
def parse_sheet (sheet : List Row) (sheet_name : Option String) : List QuoteBlock :=
  if sheet.isEmpty then []
  else
    let bs := find_table_boundaries sheet
    let step := fun (st : (List QuoteBlock × List String) × Bool) (b : Span) =>
      let table := listSlice sheet b.1 b.2.1
      let quotes := parse_single_table table b.2.2 sheet_name
      quotes.foldl (fun st2 q => (dedupStep st2.1 q, st2.2 || rawContentCheck q sheet_name)) st
    let res := bs.foldl step (([], []), false)
    let all_quotes := res.1.1
    if all_quotes.isEmpty && !res.2 && optTruthy sheet_name then
      let sr := extract_route_from_text (pyOptStr sheet_name) sheet_name
      if optTruthy sr.origin && optTruthy sr.destination then
        [{route := sr, agent := {name := some (pyOptStr sheet_name ++ "-sheet名提取")}}]
      else []
    else all_quotes

/-! ### `scripts/dryrun_horizontal_parser.py` (id assignment and dedup maps)

The runner walks files, sheets and quote blocks in order; for each block it
computes the raw key, reuses the route id recorded for that key in the
file-scoped map or appends a new route row with the next consecutive id,
and then appends an agent row carrying that route id.  The goods/fee side
tables and the sheet-goods enrichment of the route dictionary touch neither
the id counters nor the key map and are not modeled. -/

/-- The mutable state of `HorizontalParserRunner` relevant to routes and
agents: `routes` rows as (路线ID, route fields), `routeAgents` rows as
(代理路线ID, 路线ID, agent fields), the two id counters, and the
file-scoped `route_key_to_id` map. -/
structure RunState where
  routes : List (Nat × Route) := []
  routeAgents : List (Nat × Nat × Agent) := []
  routeId : Nat := 1
  agentRouteId : Nat := 1
  keyMap : List (String × Nat) := []
deriving Repr

/-- `_add_route_agent`: append an agent row bound to `rid` and advance the
agent id counter. -/
def addAgentRow (st : RunState) (rid : Nat) (a : Agent) : RunState :=
  {st with routeAgents := st.routeAgents ++ [(st.agentRouteId, rid, a)],
           agentRouteId := st.agentRouteId + 1}

/-- `_process_quote_block` (id bookkeeping): raw-key lookup, `_add_route`
on a miss, then the agent row. -/
def process_quote_block (st : RunState) (qb : QuoteBlock) : RunState :=
  let key := qb.route.get_unique_key
  match st.keyMap.lookup key with
  | some rid => addAgentRow st rid qb.agent
  | none =>
    let rid := st.routeId
    let st1 : RunState :=
      {st with routes := st.routes ++ [(rid, qb.route)],
               routeId := rid + 1,
               keyMap := (key, rid) :: st.keyMap}
    addAgentRow st1 rid qb.agent

/-- `_process_file`: the raw-key map is reset at each file boundary, the
id counters and output tables persist across files. -/
def process_file (st : RunState) (blocks : List QuoteBlock) : RunState :=
  blocks.foldl process_quote_block {st with keyMap := []}

/-- A whole run over the files' quote-block streams in order. -/
def process_run (files : List (List QuoteBlock)) : RunState :=
  files.foldl process_file {}

/-! ### Statement-side definitions for the claims -/

/-- Claim C6, antecedent as the specification words it: the cell contains a
colon, the part before the (first) colon is shorter than 30 characters and
matches the route pattern with both endpoints validated against the
reference. -/
def specRuleBAntecedent (cell : String) : Bool :=
  (strIn ":" cell || strIn "：" cell) &&
  (let pre : String := ⟨cell.data.takeWhile (fun c => !(c = ':' || c = '：'))⟩
   pre.length < 30 &&
   match searchHzRoute pre.data with
   | some m => is_valid_location ⟨m.g1⟩ && is_valid_location ⟨m.g2⟩
   | none => false)

/-- Claim C4, consequent as the specification words it: the first quote
under each merge signature is kept, every later quote with an already-seen
signature is dropped entirely. -/
def firstOccurrencePerSignature : List QuoteBlock → List QuoteBlock
  | [] => []
  | q :: rest =>
    q :: firstOccurrencePerSignature
      (rest.filter (fun q2 => !(q2.route.get_route_signature == q.route.get_route_signature)))
termination_by l => l.length
decreasing_by
  simp only [List.length_cons]
  exact Nat.lt_succ_of_le (List.length_filter_le _ _)

/-- The `nan`-style emptiness test of `_get_cell` as a predicate on a raw
cell. -/
def isNanLikeCell (s : String) : Bool :=
  ["nan", "none", ""].contains (pyLower (pyStrip s))

/-- C2 family: one route header over an agent row with three agent-name
cells. -/
def sheetC2 (a1 a2 a3 : String) : List Row :=
  [["深圳-香港"], ["代理", a1, a2, a3]]

/-- The span route shared by every column of the C2 family. -/
def routeC2 : Route :=
  {origin := some "深圳", destination := some "香港",
   raw := some "深圳-香港", sheetName := some "S1"}

/-- The column quote of the C2 family for agent-name cell `a` (already
stripped in the theorems' hypotheses). -/
def quoteC2 (a : String) : QuoteBlock :=
  {route := routeC2, agent := {name := some a}}

/-- C3 failing sheet: a span whose header resolves only the origin (the
sheet name supplies it), over a two-agent row. -/
def sheetC3 : List Row := [["深圳到QQ"], ["代理", "X公司", "Y公司"]]

/-- The partial route produced for the C3 sheet: origin resolved from the
sheet name, destination unresolved. -/
def routeC3 : Route :=
  {origin := some "深圳", destination := none,
   raw := some "深圳到QQ", sheetName := some "深圳"}

/-- C6 family: a plain title row, a rule-B candidate row, the symbolic
following row, and a trailing non-title row. -/
def sheetC6 (x : String) : List Row :=
  [["香港-新加坡"], ["深圳-泰国："], [x], ["备注说明"]]

/-- C5 counterexample route, `None` sheet identity. -/
def routeC5a : Route :=
  {origin := some "深圳", destination := some "香港", via := none, sheetName := none}

/-- C5 counterexample route, sheet identity equal to the literal text
`None`. -/
def routeC5b : Route :=
  {origin := some "深圳", destination := some "香港", via := none, sheetName := some "None"}

/-- Recursive form of the dedup fold (the seen-set threading of
`dedupStep`), used to relate `dedupBySignature` to the claim's
first-occurrence description. -/
def dedupGo (seen : List String) : List QuoteBlock → List QuoteBlock
  | [] => []
  | q :: rest =>
    if seen.contains q.route.get_route_signature then dedupGo seen rest
    else q :: dedupGo (q.route.get_route_signature :: seen) rest

/-- The inductive invariant of the runner state: route ids are exactly
1..n in order, the id counter is one past the last id, and every key-map
value and every agent row's 路线ID is the id of some stored route. -/
def RunInv (st : RunState) : Prop :=
  st.routes.map Prod.fst = List.range' 1 st.routes.length ∧
  st.routeId = st.routes.length + 1 ∧
  (∀ kv ∈ st.keyMap, ∃ r ∈ st.routes, r.1 = kv.2) ∧
  (∀ a ∈ st.routeAgents, ∃ r ∈ st.routes, r.1 = a.2.1)

/-- Concrete quote block for the C10 witness. -/
def quoteW : QuoteBlock :=
  {route := {origin := some "深圳", destination := some "香港", sheetName := some "W"},
   agent := {name := some "代理W"}}

/-! ### Helper lemmas -/

theorem isPrefixOf_self (l : List Char) : l.isPrefixOf l = true := by
  induction l with
  | nil => rfl
  | cons c t ih => simp [List.isPrefixOf, ih]

theorem strIn_self (s : String) : strIn s s = true := by
  cases s with
  | mk d =>
    cases d with
    | nil => rfl
    | cons c t => simp [strIn, strInL, isPrefixOf_self]

theorem str_append_cancel (p a b : String) : p ++ a = p ++ b ↔ a = b := by
  constructor
  · intro h
    have h2 : p.data ++ a.data = p.data ++ b.data := by
      rw [← String.data_append, ← String.data_append, h]
    exact String.ext (List.append_cancel_left h2)
  · intro h
    rw [h]

/-! ### Claim theorems -/

/-- C1: the spec claims both the regex path and the manual separator-split
fallback of route extraction map a three-segment header A-sep-B-sep-C to
origin=A, via=B, destination=C.  The regex path does (first conjunct); the
manual fallback, reached for the full-width-hyphen separator that the regex
alternation does not contain, assigns destination=B and via=C (second
conjunct), contradicting the claim and the extractor's own documented
three-location rule. -/
theorem claim_C1_three_segment_assignment :
    extract_route "深圳-香港-日本" none =
      {origin := some "深圳", destination := some "日本", via := some "香港",
       trade_remark := none, weight := none, volume := none, value := none,
       raw := "深圳-香港-日本"} ∧
    extract_route "深圳－香港－日本" none =
      {origin := some "深圳", destination := some "香港", via := some "日本",
       trade_remark := none, weight := none, volume := none, value := none,
       raw := "深圳－香港－日本"} :=
  ⟨rfl, rfl⟩

/-- C3: the spec claims a partially resolved route (exactly one endpoint)
yields no Quote Record on either path.  On the C3 sheet the header resolves
only the origin (via the sheet-name fallback inside the extractor), yet the
multi-column path emits one quote per agent column with `destination = none`,
and one of them survives sheet-level dedup into the `parse_sheet` output. -/
theorem claim_C3_partial_route_emitted :
    parse_single_table sheetC3 "深圳到QQ" (some "深圳") =
      [{route := routeC3, agent := {name := some "X公司"}},
       {route := routeC3, agent := {name := some "Y公司"}}] ∧
    parse_sheet sheetC3 (some "深圳") =
      [{route := routeC3, agent := {name := some "X公司"}}] :=
  ⟨rfl, rfl⟩

/-- C2 counterexample: a sheet with one shared route header and an agent
row with three distinct non-empty agent cells yields one Quote Record from
`parse_sheet`, not three. -/
theorem claim_C2_counterexample :
    (parse_sheet (sheetC2 "甲公司" "乙公司" "丙公司") (some "S1")).length = 1 ∧
    ("甲公司" : String) ≠ "乙公司" ∧ ("甲公司" : String) ≠ "丙公司" ∧
    ("乙公司" : String) ≠ "丙公司" := by
  exact ⟨rfl, by decide, by decide, by decide⟩

/-- C5 counterexample: two routes with identical origin/destination/via and
different sheet identities (`None` versus the literal text `None`) have
equal raw keys, because the f-string renders both as the same text. -/
theorem claim_C5_counterexample :
    routeC5a.get_unique_key = routeC5b.get_unique_key ∧
    routeC5a.sheetName ≠ routeC5b.sheetName ∧
    routeC5a.origin = routeC5b.origin ∧
    routeC5a.destination = routeC5b.destination ∧
    routeC5a.via = routeC5b.via := by
  exact ⟨rfl, by decide, rfl, rfl, rfl⟩

/-- C6 counterexample: a cell satisfying the claim's textual conditions
(colon, short pre-colon part, validated route pattern) that additionally
starts with the 货交 marker is accepted as a table header by rule 1 even
though the following row is not agent-like — refuting the claimed
"if and only if". -/
theorem claim_C6_counterexample :
    specRuleBAntecedent "货交深圳-香港：" = true ∧
    nextRowAgentCheck (some ["备注说明"]) = false ∧
    find_table_boundaries [["货交深圳-香港："], ["备注说明"]] =
      [(0, 1, "货交深圳-香港：")] :=
  ⟨rfl, rfl, rfl⟩

/-- C7 counterexample: `_deep_clean_location` maps a pure business word to
the empty string — not to the original input — so the claimed
"returns the original text unchanged" fails for this normalizer. -/
theorem claim_C7_counterexample :
    deep_clean_location "海运" = "" ∧ ("海运" : String) ≠ "" :=
  ⟨rfl, by decide⟩

/-- C8 counterexample: a whitespace-only (hence trim-empty) string is
accepted, because the empty stripped text is contained in every reference
entry; the claimed "non-empty after trimming" requirement does not hold. -/
theorem claim_C8_counterexample :
    is_valid_location " " = true ∧ pyStrip " " = "" :=
  ⟨rfl, rfl⟩

/-- C9 counterexample: `normalize_location` is not idempotent — replacing
中国香港 inside 中国中国香港 re-creates the key across the replacement
boundary, and only a second pass collapses it. -/
theorem claim_C9_counterexample :
    normalize_location (normalize_location (some "中国中国香港")) ≠
      normalize_location (some "中国中国香港") := by
  decide

/-- C5 amended: with origin, destination and via held equal, the raw keys
are equal exactly when the f-string renderings of the two sheet identities
agree; in particular they differ for any two differing genuine sheet-name
strings, and the only collision is a `None` identity against the literal
text `None`. -/
theorem claim_C5_amended (r : Route) (s1 s2 : Option String) :
    Route.get_unique_key {r with sheetName := s1} =
      Route.get_unique_key {r with sheetName := s2} ↔ pyOptStr s1 = pyOptStr s2 := by
  unfold Route.get_unique_key
  exact str_append_cancel _ _ _

/-- C7 amended: for `_clean_location_suffix` the claimed guard holds — every
output is either the original text (returned whenever iterated suffix
stripping leaves fewer than two characters) or has length at least two.
(`_deep_clean_location`, the other normalizer named by the claim, lacks the
guard: see the counterexample.) -/
theorem claim_C7_amended (loc : String) :
    clean_location_suffix loc = loc ∨ 2 ≤ (clean_location_suffix loc).length := by
  have hdef : clean_location_suffix loc =
      if (loc == "") = true then loc
      else if (iter3 stripSuffixPass loc).length < 2 then loc
      else iter3 stripSuffixPass loc := rfl
  rw [hdef]
  split_ifs with h1 h2
  · exact Or.inl rfl
  · exact Or.inl rfl
  · exact Or.inr (Nat.le_of_not_lt h2)

/-- C8 amended: `is_valid_location` is true exactly when the raw text is
non-empty (before trimming) and the stripped text contains or is contained
in some reference entry (an exact hit being the reflexive case).  Because
the empty stripped text is contained in every entry, whitespace-only text
is accepted; determinism is immediate since the function is pure. -/
theorem claim_C8_amended (s : String) :
    is_valid_location s = true ↔
      (s ≠ "" ∧ ∃ e ∈ LOCATION_WHITELIST,
        strIn e (pyStrip s) = true ∨ strIn (pyStrip s) e = true) := by
  unfold is_valid_location
  by_cases hs : s = ""
  · simp [hs]
  · have hb : (s == "") = false := by
      simp [hs]
    rw [hb]
    simp only [Bool.false_eq_true, if_false, Bool.or_eq_true, List.any_eq_true]
    constructor
    · intro h
      refine ⟨hs, ?_⟩
      cases h with
      | inl hc =>
        refine ⟨pyStrip s, ?_, Or.inl (strIn_self _)⟩
        exact List.mem_of_elem_eq_true hc
      | inr ha =>
        obtain ⟨e, he, hcond⟩ := ha
        exact ⟨e, he, by simpa using hcond⟩
    · rintro ⟨-, e, he, hcond⟩
      exact Or.inr ⟨e, he, by simpa using hcond⟩

/-- The normalization fold leaves any text untouched in which no mapping
key occurs. -/
theorem foldReplaceNoKey (l : List (String × String)) (s : String)
    (h : ∀ p ∈ l, strIn p.1 s = false) :
    l.foldl (fun acc p => if strIn p.1 acc then pyReplace acc p.1 p.2 else acc) s = s := by
  induction l with
  | nil => rfl
  | cons p t ih =>
    have hp : strIn p.1 s = false := h p (List.mem_cons_self p t)
    simp only [List.foldl_cons, hp, Bool.false_eq_true, if_false]
    exact ih (fun q hq => h q (List.mem_cons_of_mem p hq))

/-- C9 amended: `normalize_location` is idempotent at every input whose
normalized form is whitespace-trimmed and free of mapping keys — that is,
whenever the single pass already reached a fixed point.  (In general a
substitution can re-create a key across the replacement boundary, so
idempotence fails: see the counterexample.) -/
theorem claim_C9_amended (x y : String)
    (h1 : normalize_location (some x) = some y)
    (h2 : pyStrip y = y)
    (h3 : hzNormalizationMap.all (fun p => !strIn p.1 y) = true) :
    normalize_location (normalize_location (some x)) = normalize_location (some x) := by
  rw [h1]
  by_cases hy : y = ""
  · subst hy; rfl
  · have hb : (y == "") = false := by
      simp [hy]
    show normalize_location (some y) = some y
    have hdef : normalize_location (some y) =
        if (y == "") = true then some y
        else some (hzNormalizationMap.foldl
          (fun acc p => if strIn p.1 acc then pyReplace acc p.1 p.2 else acc) (pyStrip y)) := rfl
    rw [hdef, hb]
    simp only [Bool.false_eq_true, if_false]
    rw [h2]
    have hall : ∀ p ∈ hzNormalizationMap, strIn p.1 y = false := by
      intro p hp
      have hone := (List.all_eq_true.mp h3) p hp
      simpa using hone
    rw [foldReplaceNoKey _ _ hall]

/-- C9 witness: the amended idempotence applied at the concrete input
马来西亚, whose normal form 马来 is trim-fixed and key-free. -/
theorem claim_C9_witness :
    normalize_location (normalize_location (some "马来西亚")) =
      normalize_location (some "马来西亚") :=
  claim_C9_amended "马来西亚" "马来" (by decide) (by decide) (by decide)

/-- The dedup fold appends the recursively described kept quotes to its
accumulator. -/
theorem dedup_foldl_eq_go (qs : List QuoteBlock) :
    ∀ acc seen, (List.foldl dedupStep (acc, seen) qs).1 = acc ++ dedupGo seen qs := by
  induction qs with
  | nil => intro acc seen; simp [dedupGo]
  | cons q t ih =>
    intro acc seen
    cases hc : seen.contains q.route.get_route_signature with
    | true => simp only [List.foldl_cons, dedupStep, dedupGo, hc, if_true, ih]
    | false =>
      simp only [List.foldl_cons, dedupStep, dedupGo, hc, Bool.false_eq_true, if_false, ih]
      simp

/-- The seen-set-threaded dedup equals the claim's first-occurrence
filter of the not-yet-seen quotes. -/
theorem dedupGo_eq_firstOcc (qs : List QuoteBlock) :
    ∀ seen, dedupGo seen qs =
      firstOccurrencePerSignature
        (qs.filter (fun q => !(seen.contains q.route.get_route_signature))) := by
  induction qs with
  | nil => intro seen; simp [dedupGo, firstOccurrencePerSignature]
  | cons q t ih =>
    intro seen
    cases hc : seen.contains q.route.get_route_signature with
    | true =>
      simp only [dedupGo, hc, if_true, List.filter_cons, Bool.not_true,
        Bool.false_eq_true, if_false, ih]
    | false =>
      simp only [dedupGo, hc, Bool.false_eq_true, if_false, List.filter_cons,
        Bool.not_false, if_true, ih]
      rw [firstOccurrencePerSignature]
      congr 1
      rw [List.filter_filter]
      congr 1
      apply List.filter_congr
      intro x _
      rw [List.contains_cons, Bool.not_or, Bool.and_comm]

/-- C4: first, the sheet-level dedup of `parse_sheet` keeps exactly the
first quote under each merge signature and drops every later quote with an
already-seen signature (it is the claim's first-occurrence filter); second,
the merge signature is determined by the normalized origin, destination and
(truthy-guarded) via, so two routes whose fields normalize alike share one
signature and the later one's quote is dropped whole. -/
theorem claim_C4_first_occurrence_wins :
    (∀ qs : List QuoteBlock, dedupBySignature qs = firstOccurrencePerSignature qs) ∧
    (∀ r1 r2 : Route,
      normalize_location r1.origin = normalize_location r2.origin →
      normalize_location r1.destination = normalize_location r2.destination →
      (if optTruthy r1.via then normalize_location r1.via else none) =
        (if optTruthy r2.via then normalize_location r2.via else none) →
      r1.get_route_signature = r2.get_route_signature) := by
  constructor
  · intro qs
    unfold dedupBySignature
    rw [dedup_foldl_eq_go, dedupGo_eq_firstOcc]
    simp [List.contains]
  · intro r1 r2 h1 h2 h3
    unfold Route.get_route_signature
    rw [h1, h2, h3]

/-- C4 witness: the signature half applied at two spellings that normalize
to the same canonical form (奥地利维也纳 versus 维也纳). -/
theorem claim_C4_witness :
    Route.get_route_signature
        {origin := some "国内", destination := some "奥地利维也纳", via := none} =
      Route.get_route_signature
        {origin := some "国内", destination := some "维也纳", via := none} :=
  claim_C4_first_occurrence_wins.2 _ _ (by decide) (by decide) (by decide)

/-- A successful association-list lookup returns the value of some stored
pair. -/
theorem lookup_val_mem (l : List (String × Nat)) (k : String) (v : Nat)
    (h : l.lookup k = some v) : ∃ p ∈ l, p.2 = v := by
  induction l with
  | nil => simp [List.lookup] at h
  | cons p t ih =>
    rw [List.lookup] at h
    cases hk : (k == p.1) with
    | true =>
      rw [hk] at h
      refine ⟨p, List.mem_cons_self p t, ?_⟩
      simpa using h
    | false =>
      rw [hk] at h
      obtain ⟨q, hq, hv⟩ := ih h
      exact ⟨q, List.mem_cons_of_mem p hq, hv⟩

/-- The runner invariant holds for the empty state. -/
theorem runInv_init : RunInv {} := by
  refine ⟨rfl, rfl, ?_, ?_⟩ <;> intro x hx <;> simp at hx

/-- Appending an agent row bound to an existing route id preserves the
invariant. -/
theorem runInv_addAgent (st : RunState) (rid : Nat) (a : Agent)
    (h : RunInv st) (hr : ∃ r ∈ st.routes, r.1 = rid) :
    RunInv (addAgentRow st rid a) := by
  obtain ⟨h1, h2, h3, h4⟩ := h
  refine ⟨h1, h2, h3, ?_⟩
  intro x hx
  simp only [addAgentRow, List.mem_append, List.mem_singleton] at hx
  cases hx with
  | inl hx => exact h4 x hx
  | inr hx => subst hx; exact hr

/-- `_process_quote_block` preserves the invariant: a key hit reuses a
stored id, a miss appends the next consecutive id and records it. -/
theorem runInv_process (st : RunState) (qb : QuoteBlock) (h : RunInv st) :
    RunInv (process_quote_block st qb) := by
  have hsplit : process_quote_block st qb =
      match st.keyMap.lookup qb.route.get_unique_key with
      | some rid => addAgentRow st rid qb.agent
      | none =>
        addAgentRow
          {st with routes := st.routes ++ [(st.routeId, qb.route)],
                   routeId := st.routeId + 1,
                   keyMap := (qb.route.get_unique_key, st.routeId) :: st.keyMap}
          st.routeId qb.agent := rfl
  rw [hsplit]
  cases hl : st.keyMap.lookup qb.route.get_unique_key with
  | some rid =>
    obtain ⟨p, hp, hv⟩ := lookup_val_mem _ _ _ hl
    exact runInv_addAgent st rid qb.agent h (by
      obtain ⟨r, hr, h1⟩ := h.2.2.1 p hp
      exact ⟨r, hr, by rw [h1, hv]⟩)
  | none =>
    obtain ⟨h1, h2, h3, h4⟩ := h
    apply runInv_addAgent
    · refine ⟨?_, ?_, ?_, ?_⟩
      · simp only [List.map_append, List.length_append, h1, List.map_cons,
          List.map_nil, List.length_cons, List.length_nil]
        rw [h2]
        have hrc := List.range'_1_concat 1 st.routes.length
        rw [Nat.add_comm 1 st.routes.length] at hrc
        simpa using hrc.symm
      · simp [h2]
      · intro kv hkv
        simp only [List.mem_cons] at hkv
        cases hkv with
        | inl hkv =>
          refine ⟨(st.routeId, qb.route), ?_, by rw [hkv]⟩
          simp
        | inr hkv =>
          obtain ⟨r, hr, he⟩ := h3 kv hkv
          exact ⟨r, List.mem_append_left _ hr, he⟩
      · intro x hx
        obtain ⟨r, hr, he⟩ := h4 x hx
        exact ⟨r, List.mem_append_left _ hr, he⟩
    · exact ⟨(st.routeId, qb.route), by simp, rfl⟩

/-- Folding quote blocks preserves the invariant. -/
theorem runInv_foldBlocks (blocks : List QuoteBlock) :
    ∀ st : RunState, RunInv st → RunInv (blocks.foldl process_quote_block st) := by
  induction blocks with
  | nil => intro st h; exact h
  | cons b t ih =>
    intro st h
    exact ih _ (runInv_process st b h)

/-- `_process_file` (with its key-map reset) preserves the invariant. -/
theorem runInv_file (st : RunState) (blocks : List QuoteBlock) (h : RunInv st) :
    RunInv (process_file st blocks) := by
  unfold process_file
  apply runInv_foldBlocks
  obtain ⟨h1, h2, _h3, h4⟩ := h
  exact ⟨h1, h2, by intro kv hkv; simp at hkv, h4⟩

/-- The invariant holds after any whole run. -/
theorem runInv_run (files : List (List QuoteBlock)) : RunInv (process_run files) := by
  unfold process_run
  induction files using List.reverseRecOn with
  | nil => exact runInv_init
  | append_singleton fs f ih =>
    rw [List.foldl_append]
    exact runInv_file _ f ih

/-- C10: after processing any sequence of files of quote blocks, the routes
table's 路线ID column is exactly 1..n in first-assignment order, and every
record in route_agents carries a 路线ID present in the routes table. -/
theorem claim_C10_route_ids :
    ∀ files : List (List QuoteBlock),
      (process_run files).routes.map Prod.fst =
        List.range' 1 (process_run files).routes.length ∧
      ∀ a ∈ (process_run files).routeAgents,
        ∃ r ∈ (process_run files).routes, r.1 = a.2.1 :=
  fun files => ⟨(runInv_run files).1, (runInv_run files).2.2.2⟩

/-- C10 witness: the theorem applied to a concrete one-file run, with the
membership hypothesis discharged by evaluation. -/
theorem claim_C10_witness :
    ∃ r ∈ (process_run [[quoteW]]).routes, r.1 = ((1, 1, quoteW.agent) : Nat × Nat × Agent).2.1 :=
  (claim_C10_route_ids [[quoteW]]).2 (1, 1, quoteW.agent) (by decide)

/-- C6 amended: for every candidate first cell that is non-empty, already
whitespace-trimmed, within the scanner's 80-character ceiling, does not
start with the 货交 marker, contains a colon, and whose colon-stripped text
is shorter than 30 characters and matches the route pattern with both
endpoints validated — the title test accepts the cell, and the boundary
scan opens a span at the cell's row, exactly when the immediately following
row passes the agent look-ahead, whatever that row contains.  (The original
unconditional iff fails for 货交-marked cells, which rule 1 accepts without
the look-ahead: see the counterexample.) -/
theorem claim_C6_amended (c : String) (m : HzMatch)
    (hs : pyStrip c = c) (hne : (c == "") = false) (hlen : c.length ≤ 80)
    (hng : ("货交" : String).data.isPrefixOf c.data = false)
    (hcolon : (strIn ":" c || strIn "：" c) = true)
    (hshort : (pyStrip (pyRStripSet ['：', ':'] c)).length < 30)
    (hm : searchHzRoute (pyStrip (pyRStripSet ['：', ':'] c)).data = some m)
    (hv1 : is_valid_location ⟨m.g1⟩ = true)
    (hv2 : is_valid_location ⟨m.g2⟩ = true) :
    (∀ next?, isValidTitleB c next? = nextRowAgentCheck next?) ∧
    (∀ r1 : Row, ((scanRows [[c], r1] 0 [] none).map Prod.fst).contains 0
        = nextRowAgentCheck (some r1)) := by
  have ha : ∀ next?, isValidTitleB c next? = nextRowAgentCheck next? := by
    intro next?
    have hdef : isValidTitleB c next?
        = if (("货交" : String).data.isPrefixOf c.data &&
              (strIn ":" c || strIn "：" c)) = true
          then (match table_header_match c with
                | some mm => is_valid_location mm.1 && is_valid_location mm.2
                | none => false)
          else if (strIn ":" c || strIn "：" c) = true then
            (if (pyStrip (pyRStripSet ['：', ':'] c)).length < 30 then
              match searchHzRoute (pyStrip (pyRStripSet ['：', ':'] c)).data with
              | some mm => is_valid_location ⟨mm.g1⟩ && is_valid_location ⟨mm.g2⟩ &&
                  nextRowAgentCheck next?
              | none => false
            else false)
          else if (!(("：" : String).data.isSuffixOf c.data) &&
                   !((":" : String).data.isSuffixOf c.data)) = true then
            (match table_header_match c with
             | some mm => is_valid_location mm.1 && is_valid_location mm.2
             | none => false)
          else false := rfl
    rw [hdef, hng]
    simp only [Bool.false_and, Bool.false_eq_true, if_false]
    rw [hcolon, if_pos rfl, if_pos hshort, hm]
    show (is_valid_location ⟨m.g1⟩ && is_valid_location ⟨m.g2⟩ &&
        nextRowAgentCheck next?) = nextRowAgentCheck next?
    rw [hv1, hv2]
    simp only [Bool.true_and]
  refine ⟨ha, ?_⟩
  intro r1
  have h0 : scanRows [[c], r1] 0 [] none
      = if (c == "") = true then scanRows [r1] 1 [] none
        else if (pyStrip c).length > 80 then scanRows [r1] 1 [] none
        else if isValidTitleB (pyStrip c) (some r1) = true
          then scanRows [r1] 1 [] (some (0, pyStrip c))
          else scanRows [r1] 1 [] none := rfl
  rw [h0, hne]
  simp only [Bool.false_eq_true, if_false]
  rw [hs, if_neg (Nat.not_lt.mpr hlen), ha (some r1)]
  by_cases hb : nextRowAgentCheck (some r1) = true
  · rw [if_pos hb, hb]
    have h1 : scanRows [r1] 1 [] (some (0, c))
        = if (r1.headD "" == "") = true then [(0, 1, c)]
          else if (pyStrip (r1.headD "")).length > 80 then [(0, 1, c)]
          else if isValidTitleB (pyStrip (r1.headD "")) none = true
            then [(0, 0, c), (1, 1, pyStrip (r1.headD ""))]
            else [(0, 1, c)] := rfl
    rw [h1]
    by_cases hx : (r1.headD "" == "") = true
    · rw [if_pos hx]; rfl
    · rw [if_neg hx]
      by_cases hlen2 : (pyStrip (r1.headD "")).length > 80
      · rw [if_pos hlen2]; rfl
      · rw [if_neg hlen2]
        cases hb2 : isValidTitleB (pyStrip (r1.headD "")) none <;> rfl
  · have hbf : nextRowAgentCheck (some r1) = false := by
      revert hb
      cases nextRowAgentCheck (some r1) <;> simp
    rw [if_neg hb, hbf]
    have h1 : scanRows [r1] 1 [] none
        = if (r1.headD "" == "") = true then []
          else if (pyStrip (r1.headD "")).length > 80 then []
          else if isValidTitleB (pyStrip (r1.headD "")) none = true
            then [(1, 1, pyStrip (r1.headD ""))]
            else [] := rfl
    rw [h1]
    by_cases hx : (r1.headD "" == "") = true
    · rw [if_pos hx]; rfl
    · rw [if_neg hx]
      by_cases hlen2 : (pyStrip (r1.headD "")).length > 80
      · rw [if_pos hlen2]; rfl
      · rw [if_neg hlen2]
        cases hb2 : isValidTitleB (pyStrip (r1.headD "")) none <;> rfl

/-- Witness for the amended C6 statement: the universally quantified iff
applied at a concrete qualifying cell, once with a non-agent following row
(no span) and once with an agent row (span opened). -/
theorem claim_C6_amended_witness :
    isValidTitleB "深圳-泰国：" (some ["备注说明"]) = nextRowAgentCheck (some ["备注说明"]) ∧
    ((scanRows [["深圳-泰国："], ["代理A"]] 0 [] none).map Prod.fst).contains 0
      = nextRowAgentCheck (some ["代理A"]) :=
  ⟨(claim_C6_amended "深圳-泰国：" ⟨"深圳".data, "泰国".data, none⟩ rfl rfl (by decide)
      rfl rfl (by decide) rfl rfl rfl).1 (some ["备注说明"]),
   (claim_C6_amended "深圳-泰国：" ⟨"深圳".data, "泰国".data, none⟩ rfl rfl (by decide)
      rfl rfl (by decide) rfl rfl rfl).2 ["代理A"]⟩


/-- A cell that is not nan-like is in particular non-empty, hence truthy. -/
theorem nanFalse_truthy (a : String) (h : isNanLikeCell a = false) :
    strTruthy a = true := by
  by_cases he : a = ""
  · subst he; exact absurd h (by decide)
  · simp [strTruthy, he]

/-- On the C2 family sheet, the column quote of an agent column whose
agent-row cell reads back as `a` is the shared route paired with agent
`a`. -/
theorem extract_column_quote_C2 (a1 a2 a3 a : String) (col : Nat)
    (hget : get_cell (sheetC2 a1 a2 a3) 1 col = some a)
    (ht : strTruthy a = true) (hs : pyStrip a = a) :
    extract_column_quote (sheetC2 a1 a2 a3) col ⟨4, some 1⟩ routeC2 (some "S1")
      = some (quoteC2 a) := by
  have hdef : extract_column_quote (sheetC2 a1 a2 a3) col ⟨4, some 1⟩ routeC2 (some "S1")
      = (if (!optTruthy (match get_cell (sheetC2 a1 a2 a3) 1 col with
              | some c => ({name := some (pyStrip c)} : Agent)
              | none => ({} : Agent)).name) = true then none
         else some {route := routeC2,
                    agent := match get_cell (sheetC2 a1 a2 a3) 1 col with
                             | some c => ({name := some (pyStrip c)} : Agent)
                             | none => ({} : Agent)}) := rfl
  rw [hdef, hget]
  show (if (!optTruthy (some (pyStrip a))) = true then none
        else some {route := routeC2, agent := {name := some (pyStrip a)}})
      = some (quoteC2 a)
  rw [hs]
  have ho : optTruthy (some a) = true := ht
  rw [ho]
  rfl

/-- C2 (amended): a sheet with a single shared route header over an agent
row carrying three clean non-empty agent cells yields, at the span level,
three Quote Records with the identical route and the three agents in column
order — but the sheet-level signature dedup of `parse_sheet` then keeps
only the first column's quote, so `parse_sheet` emits exactly that one
record, not three. -/
theorem claim_C2_amended (a1 a2 a3 : String)
    (hs1 : pyStrip a1 = a1) (hs2 : pyStrip a2 = a2) (hs3 : pyStrip a3 = a3)
    (h1 : isNanLikeCell a1 = false) (h2 : isNanLikeCell a2 = false)
    (h3 : isNanLikeCell a3 = false) :
    parse_single_table (sheetC2 a1 a2 a3) "深圳-香港" (some "S1")
        = [quoteC2 a1, quoteC2 a2, quoteC2 a3] ∧
    parse_sheet (sheetC2 a1 a2 a3) (some "S1") = [quoteC2 a1] := by
  have ht1 : strTruthy a1 = true := nanFalse_truthy a1 h1
  have ht2 : strTruthy a2 = true := nanFalse_truthy a2 h2
  have ht3 : strTruthy a3 = true := nanFalse_truthy a3 h3
  have hget1 : get_cell (sheetC2 a1 a2 a3) 1 1 = some a1 := by
    have hg : get_cell (sheetC2 a1 a2 a3) 1 1
        = if isNanLikeCell a1 = true then none else some (pyStrip a1) := rfl
    rw [hg, h1, if_neg Bool.false_ne_true, hs1]
  have hget2 : get_cell (sheetC2 a1 a2 a3) 1 2 = some a2 := by
    have hg : get_cell (sheetC2 a1 a2 a3) 1 2
        = if isNanLikeCell a2 = true then none else some (pyStrip a2) := rfl
    rw [hg, h2, if_neg Bool.false_ne_true, hs2]
  have hget3 : get_cell (sheetC2 a1 a2 a3) 1 3 = some a3 := by
    have hg : get_cell (sheetC2 a1 a2 a3) 1 3
        = if isNanLikeCell a3 = true then none else some (pyStrip a3) := rfl
    rw [hg, h3, if_neg Bool.false_ne_true, hs3]
  have e1 := extract_column_quote_C2 a1 a2 a3 a1 1 hget1 ht1 hs1
  have e2 := extract_column_quote_C2 a1 a2 a3 a2 2 hget2 ht2 hs2
  have e3 := extract_column_quote_C2 a1 a2 a3 a3 3 hget3 ht3 hs3
  have hsingle : parse_single_table (sheetC2 a1 a2 a3) "深圳-香港" (some "S1")
      = [quoteC2 a1, quoteC2 a2, quoteC2 a3] := by
    have hdef : parse_single_table (sheetC2 a1 a2 a3) "深圳-香港" (some "S1")
        = if (!(strTruthy a1 || (strTruthy a2 || (strTruthy a3 || false)))) = true
          then (let agent0 : Agent :=
                  match get_cell (sheetC2 a1 a2 a3) 1 1 with
                  | some c => {name := some (pyStrip c)}
                  | none => {}
                let agent1 : Agent :=
                  if optTruthy agent0.name then agent0
                  else {agent0 with name := some (pyOptStr (some "S1") ++ "-单列报价")}
                [{route := routeC2, agent := agent1}])
          else (List.range' 1 3).filterMap
            (fun col =>
              extract_column_quote (sheetC2 a1 a2 a3) col ⟨4, some 1⟩ routeC2 (some "S1")) := rfl
    rw [hdef, ht1]
    show (List.range' 1 3).filterMap
        (fun col => extract_column_quote (sheetC2 a1 a2 a3) col ⟨4, some 1⟩ routeC2 (some "S1"))
        = [quoteC2 a1, quoteC2 a2, quoteC2 a3]
    rw [show (List.range' 1 3) = [1, 2, 3] from rfl]
    rw [@List.filterMap_cons_some Nat QuoteBlock
          (fun col => extract_column_quote (sheetC2 a1 a2 a3) col ⟨4, some 1⟩ routeC2 (some "S1"))
          1 [2, 3] (quoteC2 a1) e1]
    rw [@List.filterMap_cons_some Nat QuoteBlock
          (fun col => extract_column_quote (sheetC2 a1 a2 a3) col ⟨4, some 1⟩ routeC2 (some "S1"))
          2 [3] (quoteC2 a2) e2]
    rw [@List.filterMap_cons_some Nat QuoteBlock
          (fun col => extract_column_quote (sheetC2 a1 a2 a3) col ⟨4, some 1⟩ routeC2 (some "S1"))
          3 [] (quoteC2 a3) e3]
    rfl
  refine ⟨hsingle, ?_⟩
  have hsheet : parse_sheet (sheetC2 a1 a2 a3) (some "S1")
      = (let res := (parse_single_table (sheetC2 a1 a2 a3) "深圳-香港" (some "S1")).foldl
             (fun st2 q => (dedupStep st2.1 q, st2.2 || rawContentCheck q (some "S1")))
             (([], []), false)
         if res.1.1.isEmpty && !res.2 && optTruthy (some "S1") then
           (if optTruthy (extract_route_from_text (pyOptStr (some "S1")) (some "S1")).origin &&
               optTruthy (extract_route_from_text (pyOptStr (some "S1")) (some "S1")).destination then
              [{route := extract_route_from_text (pyOptStr (some "S1")) (some "S1"),
                agent := {name := some (pyOptStr (some "S1") ++ "-sheet名提取")}}]
            else [])
         else res.1.1) := rfl
  rw [hsheet, hsingle]
  rfl

/-- Witness for the amended C2 statement at three concrete company names. -/
theorem claim_C2_amended_witness :
    parse_single_table (sheetC2 "甲公司" "乙公司" "丙公司") "深圳-香港" (some "S1")
        = [quoteC2 "甲公司", quoteC2 "乙公司", quoteC2 "丙公司"] ∧
    parse_sheet (sheetC2 "甲公司" "乙公司" "丙公司") (some "S1") = [quoteC2 "甲公司"] :=
  claim_C2_amended "甲公司" "乙公司" "丙公司" rfl rfl rfl rfl rfl rfl
